import Mathlib

/-!
Shallow embedding of the queryplot repository (src/data_analyzer.py).

Python strings are modelled as Lean `String` (a packed `List Char`); the
Python string methods used by the source (`strip`, `strip("`")`, slicing,
`startswith`) are modelled character-exactly on the underlying char list.
The effectful collaborators (the google.generativeai endpoint, `exec`, the
filesystem read of `output.png`) are modelled as per-invocation oracles:
the control flow around them is translated line by line from the source.
-/

/-- Whitespace characters stripped by the Python `str.strip()` method
(ASCII portion, which covers every string this pipeline manipulates). -/
def isPySpace (c : Char) : Bool :=
  c = ' ' || c = '\t' || c = '\n' || c = '\r' || c = '\x0b' || c = '\x0c'

/-- Backtick test, for the Python `str.strip("`")` call. -/
def isBacktick (c : Char) : Bool := c = '`'

/-- List-level model of the Python `str.startswith` test. -/
def beginsWith : List Char → List Char → Bool
  | _, [] => true
  | [], _ :: _ => false
  | a :: s, b :: p => a == b && beginsWith s p

/-- Substring occurrence test: some suffix of `l` begins with `p`. -/
def hasSub : List Char → List Char → Bool
  | [], p => p.isEmpty
  | a :: t, p => beginsWith (a :: t) p || hasSub t p

/-- Strip characters satisfying `p` from both ends of a char list: the
list-level model of Python `str.strip` with a character set. -/
def stripEnds (p : Char → Bool) (l : List Char) : List Char :=
  ((l.dropWhile p).reverse.dropWhile p).reverse

/-- Model of Python `s.strip()` (no argument: strip whitespace). -/
def pyStrip (s : String) : String := ⟨stripEnds isPySpace s.data⟩

/-- Model of Python `s.strip("`")` (strip backticks from both ends). -/
def pyStripBackticks (s : String) : String := ⟨stripEnds isBacktick s.data⟩

/-- Model of Python `s.startswith(p)`. -/
def pyStartswith (s p : String) : Bool := beginsWith s.data p.data

/-- Model of the Python slice `s[n:]`. -/
def pyDrop (s : String) (n : Nat) : String := ⟨s.data.drop n⟩

/-- Whether a string is a single line (no newline and no carriage return). -/
def pyOneLine (s : String) : Bool := s.data.all (fun c => !(c = '\n' || c = '\r'))

/-- The markdown fence marker tested at src/data_analyzer.py line 86. -/
def fenceMarker : String := "```python"

/-- Markdown-fence cleanup of the model response, translated from
src/data_analyzer.py lines 86-87: when the stripped response starts with
the marker, drop the first nine characters of the stripped response, strip
backticks from both ends, then strip whitespace; otherwise the response is
returned unchanged. -/
def strip_markdown_fence (s : String) : String :=
  if pyStartswith (pyStrip s) fenceMarker then
    pyStrip (pyStripBackticks (pyDrop (pyStrip s) 9))
  else s

/-- Oracle for the google.generativeai collaborator inside one call of
`generate_analysis_code`: `configure` is `some e` when `genai.configure` or
the `GenerativeModel` constructor raises an exception whose `str` is `e`
(only reachable with a non-empty key); `generate` is the outcome of
`model.generate_content` — `Except.error e` when it raises with message
`e`, `Except.ok t` when it returns a response whose `.text` is `t`. -/
structure GenAiEnv where
  configure : Option String
  generate : Except String String

/-- Fallback fragment built at src/data_analyzer.py line 45. -/
def configErrorFragment (e : String) : String :=
  "print('Error configuring AI model: " ++ e ++ "')"

/-- Fallback fragment built at src/data_analyzer.py line 83. -/
def callErrorFragment (e : String) : String :=
  "print('Error calling AI model: " ++ e ++ "')"

/-- Which of the three control-flow paths of `generate_analysis_code` is
taken (src/data_analyzer.py lines 39-83): the empty-key `ValueError` and a
configuration exception are both caught at line 44, a `generate_content`
exception at line 82, otherwise the raw response text flows on. -/
inductive GenOutcome where
  | configError (e : String)
  | callError (e : String)
  | success (raw : String)
deriving DecidableEq

/-- Path selection of `generate_analysis_code`: `if not api_key: raise
ValueError("API key is missing.")` precedes the configure step, and the
completion call is only reached when configuration succeeded. -/
def generate_run (api_key : String) (env : GenAiEnv) : GenOutcome :=
  if api_key = "" then GenOutcome.configError "API key is missing."
  else
    match env.configure with
    | some e => GenOutcome.configError e
    | none =>
      match env.generate with
      | Except.error e => GenOutcome.callError e
      | Except.ok t => GenOutcome.success t

/-- Model of `generate_analysis_code` (src/data_analyzer.py lines 33-91):
the user prompt, schema and head only feed the composed prompt sent to the
endpoint (absorbed into the oracle); each failure path returns its fallback
fragment, and a successful response is markdown-fence cleaned. -/
def generate_analysis_code (user_prompt df_schema df_head api_key : String)
    (env : GenAiEnv) : String :=
  match generate_run api_key env with
  | GenOutcome.configError e => configErrorFragment e
  | GenOutcome.callError e => callErrorFragment e
  | GenOutcome.success raw => strip_markdown_fence raw

/-- Whether one call of `generate_analysis_code` reaches the
`model.generate_content` call at src/data_analyzer.py line 80: exactly the
runs that do not end in the configuration-error path. -/
def contacts_endpoint (api_key : String) (env : GenAiEnv) : Bool :=
  match generate_run api_key env with
  | GenOutcome.configError _ => false
  | GenOutcome.callError _ => true
  | GenOutcome.success _ => true

/-- One column of an in-memory dataset: its name, inferred dtype, and the
cells as rendered values (`none` = null). -/
structure DFColumn where
  name : String
  dtype : String
  cells : List (Option String)
deriving DecidableEq

/-- A pandas DataFrame at the granularity this pipeline observes: an
ordered sequence of named columns. -/
structure DataFrame where
  columns : List DFColumn
deriving DecidableEq

/-- Non-null count of a column, as reported by `df.info()`. -/
def nonNullCount (c : DFColumn) : Nat := c.cells.countP Option.isSome

/-- Per-column rows of the `df.info()` schema listing: one entry
`(name, non-null count, dtype)` per column, in column order. -/
def df_info_entries (df : DataFrame) : List (String × Nat × String) :=
  df.columns.map (fun c => (c.name, nonNullCount c, c.dtype))

/-- The `df.head().to_string()` preview at the structured level: the first
five cells of every column. -/
def df_head_preview (df : DataFrame) : List (String × List (Option String)) :=
  df.columns.map (fun c => (c.name, c.cells.take 5))

/-- Model of `analyze_dataframe` (src/data_analyzer.py lines 11-19):
returns the `df.info()` schema description and the `df.head()` preview. -/
def analyze_dataframe (df : DataFrame) :
    List (String × Nat × String) × List (String × List (Option String)) :=
  (df_info_entries df, df_head_preview df)

/-- A value bound in the globals dictionary handed to `exec`. -/
inductive PyBinding where
  | dataframe (df : DataFrame)
  | module (moduleName : String)
deriving DecidableEq

/-- The restricted globals dictionary built at src/data_analyzer.py line
100: `{"df": df, "pd": pd}`. -/
def execution_globals (df : DataFrame) : List (String × PyBinding) :=
  [("df", PyBinding.dataframe df), ("pd", PyBinding.module "pandas")]

/-- Outcome of the `open("output.png", "rb")` / `f.read()` step inside one
call of `safe_execute_code`: the bytes read on success, a
`FileNotFoundError` (caught at line 115), or any other exception with its
formatted trace (which escapes the inner handler). -/
inductive ArtifactRead where
  | found (bytes : List Nat)
  | fileNotFound
  | readError (trace : String)
deriving DecidableEq

/-- Host oracle for one call of `safe_execute_code`: `execRaises code g`
is `some trace` when `exec(code, g)` raises an exception whose formatted
traceback is `trace`, `none` when it completes; `artifactRead` is the
outcome of the artifact-file read attempted after a completed execution. -/
structure ExecEnv where
  execRaises : String → List (String × PyBinding) → Option String
  artifactRead : ArtifactRead

/-- The dictionary returned by `safe_execute_code`: the `image` and
`error` slots, each present or absent. -/
structure ExecResult where
  image : Option (List Nat)
  error : Option String
deriving DecidableEq

/-- Model of `safe_execute_code` (src/data_analyzer.py lines 94-123): run
the code under `execution_globals`; if it raises, the outer handler stores
the formatted trace and the artifact check never runs; otherwise read
`output.png` — bytes go to the image slot, `FileNotFoundError` leaves the
result empty, and any other read exception escapes to the same outer
handler and lands in the error slot. -/
def safe_execute_code (code : String) (df : DataFrame) (env : ExecEnv) : ExecResult :=
  match env.execRaises code (execution_globals df) with
  | some trace => { image := none, error := some trace }
  | none =>
    match env.artifactRead with
    | ArtifactRead.found bytes => { image := some bytes, error := none }
    | ArtifactRead.fileNotFound => { image := none, error := none }
    | ArtifactRead.readError trace => { image := none, error := some trace }

/-- Well-formedness of a single-line Python `print` of a single-quoted
string literal: the checker accepts exactly the fragments of the shape
`print('<body>')` whose body contains no quote, backslash or line break,
which are precisely the syntactically executable fragments of this shape
that the fallback paths can emit. -/
def pyLiteralCharOk (c : Char) : Bool :=
  !(c = '\x27' || c = '\\' || c = '\n' || c = '\r')

/-- Checker for the fallback fragments: shape `print('...')` with a
well-formed literal body. -/
def printFragmentExecutable (s : String) : Bool :=
  9 ≤ s.data.length &&
  beginsWith s.data ("print('").data &&
  beginsWith s.data.reverse ("')").data.reverse &&
  (((s.data.drop 7).dropLast).dropLast).all pyLiteralCharOk

/-- The canonical markdown-fenced form of a response body: the fence
marker tagged python on its own line, the body, a closing fence line. -/
def fencedResponse (c : String) : String := "```python\n" ++ c ++ "\n```"

/-- The char-list form of a canonically fenced response body. -/
def fencedL (l : List Char) : List Char :=
  '`' :: '`' :: '`' :: 'p' :: 'y' :: 't' :: 'h' :: 'o' :: 'n' :: '\n' ::
    (l ++ ['\n', '`', '`', '`'])

lemma fencedResponse_data (c : String) : (fencedResponse c).data = fencedL c.data := by
  obtain ⟨l⟩ := c
  rfl

lemma beginsWith_append (p l : List Char) : beginsWith (p ++ l) p = true := by
  induction p with
  | nil => simp [beginsWith]
  | cons a t ih => simp [beginsWith, ih]

lemma hasSub_of_beginsWith {l p : List Char} (h : beginsWith l p = true) :
    hasSub l p = true := by
  cases l with
  | nil =>
    cases p with
    | nil => rfl
    | cons b q => simp [beginsWith] at h
  | cons a t => simp [hasSub, h]

lemma hasSub_append_left (a : List Char) {l p : List Char} (h : hasSub l p = true) :
    hasSub (a ++ l) p = true := by
  induction a with
  | nil => simpa using h
  | cons x t ih => simp [hasSub, ih]

lemma hasSub_middle (a b p : List Char) : hasSub (a ++ (p ++ b)) p = true :=
  hasSub_append_left a (hasSub_of_beginsWith (beginsWith_append p b))

lemma dw_cons_false {p : Char → Bool} {x : Char} (t : List Char) (h : p x = false) :
    (x :: t).dropWhile p = x :: t := by
  simp [List.dropWhile_cons, h]

lemma dw_cons_true {p : Char → Bool} {x : Char} (t : List Char) (h : p x = true) :
    (x :: t).dropWhile p = t.dropWhile p := by
  simp [List.dropWhile_cons, h]

lemma length_dropWhile_le (p : Char → Bool) (l : List Char) :
    (l.dropWhile p).length ≤ l.length := by
  induction l with
  | nil => simp
  | cons x t ih =>
    rw [List.dropWhile_cons]
    by_cases h : p x = true
    · rw [if_pos h]; exact le_trans ih (by simp)
    · rw [if_neg h]

lemma dropWhile_eq_self_of_length {p : Char → Bool} {l : List Char}
    (h : (l.dropWhile p).length = l.length) : l.dropWhile p = l := by
  cases l with
  | nil => rfl
  | cons x t =>
    by_cases hp : p x = true
    · exfalso
      rw [List.dropWhile_cons, if_pos hp] at h
      have := length_dropWhile_le p t
      rw [h] at this
      simp only [List.length_cons] at this
      omega
    · rw [List.dropWhile_cons, if_neg hp]

lemma stripEnds_eq_self_of {p : Char → Bool} {l : List Char}
    (hhead : l.dropWhile p = l) (htail : l.reverse.dropWhile p = l.reverse) :
    stripEnds p l = l := by
  unfold stripEnds
  rw [hhead, htail, List.reverse_reverse]

lemma stripEnds_eq_self {p : Char → Bool} {l : List Char} (h : stripEnds p l = l) :
    l.dropWhile p = l ∧ l.reverse.dropWhile p = l.reverse := by
  have hlen : (stripEnds p l).length = l.length := by rw [h]
  have hle1 : (stripEnds p l).length ≤ (l.dropWhile p).length := by
    unfold stripEnds
    calc (((l.dropWhile p).reverse.dropWhile p).reverse).length
        = ((l.dropWhile p).reverse.dropWhile p).length := by simp
      _ ≤ (l.dropWhile p).reverse.length := length_dropWhile_le _ _
      _ = (l.dropWhile p).length := by simp
  have hle2 : (l.dropWhile p).length ≤ l.length := length_dropWhile_le p l
  have hd : l.dropWhile p = l := dropWhile_eq_self_of_length (by omega)
  refine ⟨hd, ?_⟩
  unfold stripEnds at h
  rw [hd] at h
  have := congrArg List.reverse h
  simpa using this

lemma stripWS_fencedL (l : List Char) : stripEnds isPySpace (fencedL l) = fencedL l := by
  apply stripEnds_eq_self_of
  · have h : fencedL l = '`' :: ('`' :: '`' :: 'p' :: 'y' :: 't' :: 'h' :: 'o' :: 'n' ::
        '\n' :: (l ++ ['\n', '`', '`', '`'])) := rfl
    rw [h, dw_cons_false _ (by decide)]
  · have hr : (fencedL l).reverse = '`' :: ('`' :: '`' :: '\n' ::
        (l.reverse ++ ['\n', 'n', 'o', 'h', 't', 'y', 'p', '`', '`', '`'])) := by
      simp [fencedL]
    rw [hr, dw_cons_false _ (by decide)]

lemma fencedL_drop9 (l : List Char) :
    (fencedL l).drop 9 = '\n' :: (l ++ ['\n', '`', '`', '`']) := rfl

lemma fencedL_marker (l : List Char) :
    beginsWith (fencedL l) ("```python".data) = true := by
  have h9 : "```python".data = ['`', '`', '`', 'p', 'y', 't', 'h', 'o', 'n'] := by decide
  rw [h9]
  simp [fencedL, beginsWith]

lemma stripBT_wrap (l : List Char) :
    stripEnds isBacktick ('\n' :: (l ++ ['\n', '`', '`', '`'])) = '\n' :: (l ++ ['\n']) := by
  unfold stripEnds
  rw [dw_cons_false _ (by decide : isBacktick '\n' = false)]
  have hr : ('\n' :: (l ++ ['\n', '`', '`', '`'])).reverse
      = '`' :: ('`' :: '`' :: '\n' :: (l.reverse ++ ['\n'])) := by simp
  rw [hr, dw_cons_true _ (by decide), dw_cons_true _ (by decide), dw_cons_true _ (by decide),
      dw_cons_false _ (by decide : isBacktick '\n' = false)]
  simp

lemma stripWS_newline_wrap (l : List Char)
    (h1 : l.dropWhile isPySpace = l) (h2 : l.reverse.dropWhile isPySpace = l.reverse) :
    stripEnds isPySpace ('\n' :: (l ++ ['\n'])) = l := by
  cases l with
  | nil => decide
  | cons x t =>
    have hx : isPySpace x = false := by
      by_cases hw : isPySpace x = true
      · exfalso
        rw [List.dropWhile_cons, if_pos hw] at h1
        have := length_dropWhile_le isPySpace t
        rw [h1] at this
        simp only [List.length_cons] at this
        omega
      · simpa using hw
    unfold stripEnds
    rw [List.cons_append, dw_cons_true _ (by decide : isPySpace '\n' = true),
        dw_cons_false _ hx]
    have hrev : (x :: (t ++ ['\n'])).reverse = '\n' :: (t.reverse ++ [x]) := by simp
    rw [hrev, dw_cons_true _ (by decide : isPySpace '\n' = true)]
    have h2x : (t.reverse ++ [x]).dropWhile isPySpace = t.reverse ++ [x] := by
      simpa using h2
    rw [h2x]
    simp

lemma all_oneLine_of_literalOk {l : List Char} (h : l.all pyLiteralCharOk = true) :
    l.all (fun c => !(c = '\n' || c = '\r')) = true := by
  simp only [List.all_eq_true] at h ⊢
  intro c hc
  have hq := h c hc
  by_cases h1 : c = '\n'
  · exfalso
    subst h1
    simp [pyLiteralCharOk] at hq
  · by_cases h2 : c = '\r'
    · exfalso
      subst h2
      simp [pyLiteralCharOk] at hq
    · simp [h1, h2]

lemma printFragment_props (mid e : String)
    (hmid : mid.data.all pyLiteralCharOk = true)
    (he : e.data.all pyLiteralCharOk = true) :
    pyOneLine (("print('" ++ mid) ++ e ++ "')") = true ∧
    hasSub (("print('" ++ mid) ++ e ++ "')").data e.data = true ∧
    printFragmentExecutable (("print('" ++ mid) ++ e ++ "')") = true := by
  obtain ⟨M⟩ := mid
  obtain ⟨E⟩ := e
  have hdata : ((("print('" : String) ++ ⟨M⟩) ++ ⟨E⟩ ++ "')").data
      = (("print('".data ++ M) ++ E) ++ "')".data := rfl
  refine ⟨?_, ?_, ?_⟩
  · unfold pyOneLine
    rw [hdata]
    simp only [List.all_append, Bool.and_eq_true]
    exact ⟨⟨⟨by decide, all_oneLine_of_literalOk hmid⟩, all_oneLine_of_literalOk he⟩, by decide⟩
  · rw [hdata]
    have h : (("print('".data ++ M) ++ E) ++ "')".data
        = ("print('".data ++ M) ++ (E ++ "')".data) := by
      simp [List.append_assoc]
    rw [h]
    exact hasSub_middle _ _ _
  · unfold printFragmentExecutable
    rw [hdata]
    simp only [Bool.and_eq_true, decide_eq_true_eq]
    have hassoc : (("print('".data ++ M) ++ E) ++ "')".data
        = "print('".data ++ (M ++ (E ++ "')".data)) := by
      simp [List.append_assoc]
    refine ⟨⟨⟨?_, ?_⟩, ?_⟩, ?_⟩
    · simp only [List.length_append, List.length_cons, List.length_nil]
      omega
    · rw [hassoc]
      exact beginsWith_append _ _
    · have hq : ("')".data).reverse = [')', '\x27'] := by decide
      have hrev : ((("print('".data ++ M) ++ E) ++ "')".data).reverse
          = ("')".data).reverse ++ (E.reverse ++ (M.reverse ++ ("print('".data).reverse)) := by
        simp [List.reverse_append, List.append_assoc]
      rw [hrev, hq]
      exact beginsWith_append _ _
    · rw [hassoc, List.drop_left' (by decide : ("print('".data).length = 7)]
      have hY : M ++ (E ++ "')".data) = ((M ++ E) ++ ['\x27']) ++ [')'] := by
        have h2 : "')".data = ['\x27', ')'] := by decide
        rw [h2]
        simp [List.append_assoc]
      rw [hY, List.dropLast_concat, List.dropLast_concat]
      simp [List.all_append, hmid, he]

lemma configErrorFragment_props (e : String) (he : e.data.all pyLiteralCharOk = true) :
    pyOneLine (configErrorFragment e) = true ∧
    hasSub (configErrorFragment e).data e.data = true ∧
    printFragmentExecutable (configErrorFragment e) = true := by
  have h : configErrorFragment e = ("print('" ++ "Error configuring AI model: ") ++ e ++ "')" := by
    have hlit : ("print('" ++ "Error configuring AI model: " : String)
        = "print('Error configuring AI model: " := by decide
    rw [hlit]
    rfl
  rw [h]
  exact printFragment_props "Error configuring AI model: " e (by decide) he

lemma callErrorFragment_props (e : String) (he : e.data.all pyLiteralCharOk = true) :
    pyOneLine (callErrorFragment e) = true ∧
    hasSub (callErrorFragment e).data e.data = true ∧
    printFragmentExecutable (callErrorFragment e) = true := by
  have h : callErrorFragment e = ("print('" ++ "Error calling AI model: ") ++ e ++ "')" := by
    have hlit : ("print('" ++ "Error calling AI model: " : String)
        = "print('Error calling AI model: " := by decide
    rw [hlit]
    rfl
  rw [h]
  exact printFragment_props "Error calling AI model: " e (by decide) he

lemma strip_markdown_fence_of_no_marker (s : String)
    (h : pyStartswith (pyStrip s) fenceMarker = false) :
    strip_markdown_fence s = s := by
  unfold strip_markdown_fence
  simp [h]

/-- C1: for every code string, dataset and host outcome, `safe_execute_code`
returns exactly one of three mutually exclusive shapes — image only, error
only, or empty; the image and error slots are never both populated, and
when the executed code raises, the artifact check is skipped and the error
result carrying that trace is returned alone. -/
theorem safe_execute_code_result_shapes (code : String) (df : DataFrame) (env : ExecEnv) :
    (safe_execute_code code df env = { image := none, error := none } ∨
      (∃ b, safe_execute_code code df env = { image := some b, error := none }) ∨
      (∃ t, safe_execute_code code df env = { image := none, error := some t })) ∧
    ¬((safe_execute_code code df env).image.isSome = true ∧
      (safe_execute_code code df env).error.isSome = true) ∧
    (∀ t, env.execRaises code (execution_globals df) = some t →
      safe_execute_code code df env = { image := none, error := some t }) := by
  cases hx : env.execRaises code (execution_globals df) with
  | some t =>
    have hr : safe_execute_code code df env = { image := none, error := some t } := by
      simp [safe_execute_code, hx]
    refine ⟨Or.inr (Or.inr ⟨t, hr⟩), by rw [hr]; simp, ?_⟩
    intro t2 ht2
    injection ht2 with h
    rw [← h]
    exact hr
  | none =>
    have hnone : ∀ t2 : String, (none : Option String) = some t2 →
        safe_execute_code code df env = { image := none, error := some t2 } := by
      intro t2 ht2
      exact absurd ht2 (by simp)
    cases ha : env.artifactRead with
    | found bytes =>
      have hr : safe_execute_code code df env = { image := some bytes, error := none } := by
        simp [safe_execute_code, hx, ha]
      exact ⟨Or.inr (Or.inl ⟨bytes, hr⟩), by rw [hr]; simp, hnone⟩
    | fileNotFound =>
      have hr : safe_execute_code code df env = { image := none, error := none } := by
        simp [safe_execute_code, hx, ha]
      exact ⟨Or.inl hr, by rw [hr]; simp, hnone⟩
    | readError trace =>
      have hr : safe_execute_code code df env = { image := none, error := some trace } := by
        simp [safe_execute_code, hx, ha]
      exact ⟨Or.inr (Or.inr ⟨trace, hr⟩), by rw [hr]; simp, hnone⟩

/-- C1 witness: a host outcome where the code raises produces the error
shape alone, the artifact read outcome notwithstanding. -/
theorem safe_execute_code_result_shapes_witness :
    safe_execute_code "df.plot()" ⟨[]⟩
        ⟨fun _ _ => some "Traceback: boom", ArtifactRead.found [1, 2]⟩ =
      { image := none, error := some "Traceback: boom" } :=
  (safe_execute_code_result_shapes "df.plot()" ⟨[]⟩
    ⟨fun _ _ => some "Traceback: boom", ArtifactRead.found [1, 2]⟩).2.2 "Traceback: boom" rfl

/-- C3: when execution completes and the artifact read finds `output.png`
with its byte contents, the result carries exactly those bytes in the image
slot (populated, and not the empty byte string when the file is non-empty)
and the error slot is absent. -/
theorem safe_execute_code_artifact_capture (code : String) (df : DataFrame) (env : ExecEnv)
    (bytes : List Nat)
    (hexec : env.execRaises code (execution_globals df) = none)
    (hread : env.artifactRead = ArtifactRead.found bytes)
    (hbytes : bytes ≠ []) :
    (safe_execute_code code df env).image = some bytes ∧
    (safe_execute_code code df env).image.isSome = true ∧
    (safe_execute_code code df env).image ≠ some [] ∧
    (safe_execute_code code df env).error = none := by
  have hr : safe_execute_code code df env = { image := some bytes, error := none } := by
    simp [safe_execute_code, hexec, hread]
  rw [hr]
  exact ⟨rfl, rfl, by simpa using hbytes, rfl⟩

/-- C3 witness: executing code that wrote a two-byte artifact yields those
bytes in the image slot and no error. -/
theorem safe_execute_code_artifact_capture_witness :
    (safe_execute_code "df.plot()" ⟨[]⟩ ⟨fun _ _ => none, ArtifactRead.found [137, 80]⟩).image
        = some [137, 80] ∧
    (safe_execute_code "df.plot()" ⟨[]⟩
        ⟨fun _ _ => none, ArtifactRead.found [137, 80]⟩).image.isSome = true ∧
    (safe_execute_code "df.plot()" ⟨[]⟩
        ⟨fun _ _ => none, ArtifactRead.found [137, 80]⟩).image ≠ some [] ∧
    (safe_execute_code "df.plot()" ⟨[]⟩
        ⟨fun _ _ => none, ArtifactRead.found [137, 80]⟩).error = none :=
  safe_execute_code_artifact_capture "df.plot()" ⟨[]⟩
    ⟨fun _ _ => none, ArtifactRead.found [137, 80]⟩ [137, 80] rfl rfl (by decide)

/-- C4: when execution completes without raising and the artifact file is
absent (`FileNotFoundError`), the result has neither slot populated: file
absence is not an application error. -/
theorem safe_execute_code_empty_result (code : String) (df : DataFrame) (env : ExecEnv)
    (hexec : env.execRaises code (execution_globals df) = none)
    (hread : env.artifactRead = ArtifactRead.fileNotFound) :
    safe_execute_code code df env = { image := none, error := none } := by
  simp [safe_execute_code, hexec, hread]

/-- C4 witness: a completed run with no artifact gives the empty result. -/
theorem safe_execute_code_empty_result_witness :
    safe_execute_code "df.sum()" ⟨[]⟩ ⟨fun _ _ => none, ArtifactRead.fileNotFound⟩ =
      { image := none, error := none } :=
  safe_execute_code_empty_result "df.sum()" ⟨[]⟩
    ⟨fun _ _ => none, ArtifactRead.fileNotFound⟩ rfl rfl

/-- C8: when execution completes but opening or reading `output.png` raises
anything other than `FileNotFoundError`, the exception escapes the inner
handler and lands in the error slot with its trace; the result is not the
empty one. -/
theorem safe_execute_code_read_error (code : String) (df : DataFrame) (env : ExecEnv)
    (trace : String)
    (hexec : env.execRaises code (execution_globals df) = none)
    (hread : env.artifactRead = ArtifactRead.readError trace) :
    safe_execute_code code df env = { image := none, error := some trace } ∧
    safe_execute_code code df env ≠ { image := none, error := none } := by
  have hr : safe_execute_code code df env = { image := none, error := some trace } := by
    simp [safe_execute_code, hexec, hread]
  exact ⟨hr, by rw [hr]; simp⟩

/-- C8 witness: a permission failure while reading the artifact is reported
in the error slot. -/
theorem safe_execute_code_read_error_witness :
    safe_execute_code "df.plot()" ⟨[]⟩
        ⟨fun _ _ => none, ArtifactRead.readError "PermissionError"⟩ =
      { image := none, error := some "PermissionError" } ∧
    safe_execute_code "df.plot()" ⟨[]⟩
        ⟨fun _ _ => none, ArtifactRead.readError "PermissionError"⟩ ≠
      { image := none, error := none } :=
  safe_execute_code_read_error "df.plot()" ⟨[]⟩
    ⟨fun _ _ => none, ArtifactRead.readError "PermissionError"⟩ "PermissionError" rfl rfl

/-- C7: the globals dictionary built for `exec` binds exactly the names
`df` (to the dataset) and `pd` (to the pandas module) and nothing else, and
the outcome of `safe_execute_code` depends on the host only through the
execution of the code under exactly that binding set. -/
theorem execution_globals_only_df_pd (code : String) (df : DataFrame) (r : ArtifactRead)
    (f g : String → List (String × PyBinding) → Option String) :
    ((execution_globals df).map Prod.fst = ["df", "pd"]) ∧
    (∀ k b, (k, b) ∈ execution_globals df →
      (k = "df" ∧ b = PyBinding.dataframe df) ∨ (k = "pd" ∧ b = PyBinding.module "pandas")) ∧
    (f code (execution_globals df) = g code (execution_globals df) →
      safe_execute_code code df ⟨f, r⟩ = safe_execute_code code df ⟨g, r⟩) := by
  refine ⟨rfl, ?_, ?_⟩
  · intro k b hkb
    simp only [execution_globals, List.mem_cons, List.not_mem_nil, or_false,
      Prod.mk.injEq] at hkb
    tauto
  · intro hfg
    unfold safe_execute_code
    rw [show (⟨f, r⟩ : ExecEnv).execRaises = f from rfl,
      show (⟨g, r⟩ : ExecEnv).execRaises = g from rfl, hfg]

/-- C7 witness: the membership characterization applied to the binding of
the name df in a concrete globals dictionary. -/
theorem execution_globals_only_df_pd_witness :
    ("df" = "df" ∧ PyBinding.dataframe ⟨[]⟩ = PyBinding.dataframe ⟨[]⟩) ∨
    ("df" = "pd" ∧ PyBinding.dataframe ⟨[]⟩ = PyBinding.module "pandas") :=
  (execution_globals_only_df_pd "df.sum()" ⟨[]⟩ ArtifactRead.fileNotFound
    (fun _ _ => none) (fun _ _ => none)).2.1 "df" (PyBinding.dataframe ⟨[]⟩) (by decide)

/-- C6: for a dataset whose column names are distinct (as any dataset read
from a well-formed CSV is, pandas mangling duplicate headers), the schema
description returned by `analyze_dataframe` lists every column name exactly
once, paired with that column's dtype and non-null count. -/
theorem analyze_dataframe_schema_unique (df : DataFrame)
    (hnodup : (df.columns.map DFColumn.name).Nodup) :
    ∀ c ∈ df.columns,
      ((analyze_dataframe df).1.map Prod.fst).count c.name = 1 ∧
      (c.name, nonNullCount c, c.dtype) ∈ (analyze_dataframe df).1 := by
  intro c hc
  have hmap : (analyze_dataframe df).1.map Prod.fst = df.columns.map DFColumn.name := by
    simp [analyze_dataframe, df_info_entries, List.map_map]
  constructor
  · rw [hmap]
    exact List.count_eq_one_of_mem hnodup (List.mem_map_of_mem DFColumn.name hc)
  · exact List.mem_map_of_mem (fun c => (c.name, nonNullCount c, c.dtype)) hc

/-- C6 witness: a two-column dataset, checked on its first column. -/
theorem analyze_dataframe_schema_unique_witness :
    ((analyze_dataframe ⟨[⟨"Category", "object", [some "A", some "B"]⟩,
        ⟨"Sales", "int64", [some "10", none]⟩]⟩).1.map Prod.fst).count "Category" = 1 ∧
    ("Category", 2, "object") ∈ (analyze_dataframe ⟨[⟨"Category", "object",
        [some "A", some "B"]⟩, ⟨"Sales", "int64", [some "10", none]⟩]⟩).1 :=
  analyze_dataframe_schema_unique ⟨[⟨"Category", "object", [some "A", some "B"]⟩,
    ⟨"Sales", "int64", [some "10", none]⟩]⟩ (by decide)
    ⟨"Category", "object", [some "A", some "B"]⟩ (by decide)

/-- C9: the markdown-fence cleanup fires only when the whitespace-stripped
response starts with the exact marker three-backticks-python; any response
failing that test, in particular one opening with a bare three-backtick
fence, is returned unchanged, fence characters included. -/
theorem strip_markdown_fence_requires_python_tag (s : String)
    (h : pyStartswith (pyStrip s) fenceMarker = false) :
    strip_markdown_fence s = s :=
  strip_markdown_fence_of_no_marker s h

/-- C9 witness: a response fenced with bare backticks and no python tag
comes back unchanged, backticks and all. -/
theorem strip_markdown_fence_requires_python_tag_witness :
    strip_markdown_fence "```\ndf.plot()\n```" = "```\ndf.plot()\n```" :=
  strip_markdown_fence_requires_python_tag "```\ndf.plot()\n```" (by decide)

/-- C10: with an empty credential, for every user prompt, schema and
preview and every endpoint behaviour, `generate_analysis_code` returns
exactly the missing-key diagnostic fragment and never reaches the
completion call. -/
theorem generate_empty_key_fragment (user_prompt df_schema df_head : String)
    (env : GenAiEnv) :
    generate_analysis_code user_prompt df_schema df_head "" env =
      "print('Error configuring AI model: API key is missing.')" ∧
    contacts_endpoint "" env = false := by
  have hrun : generate_run "" env = GenOutcome.configError "API key is missing." := by
    unfold generate_run
    simp
  constructor
  · unfold generate_analysis_code
    rw [hrun]
    decide
  · unfold contacts_endpoint
    rw [hrun]

/-- C2 counterexample: a configuration failure whose description contains a
newline is interpolated verbatim into the fallback fragment, so the
returned fragment is neither one line nor a syntactically executable
`print` of a string literal, refuting the claim as universally stated. -/
theorem generate_failure_fragment_cex :
    pyOneLine (generate_analysis_code "p" "s" "h" "k" ⟨some "a\nb", Except.ok ""⟩) = false ∧
    printFragmentExecutable
      (generate_analysis_code "p" "s" "h" "k" ⟨some "a\nb", Except.ok ""⟩) = false := by
  decide

/-- C2 (amended): `generate_analysis_code` never raises — every failure of
endpoint configuration or of the completion call (the empty credential
included) returns a fallback fragment — and whenever the failure
description contains no quote, backslash, newline or carriage return, that
fragment is one line, contains the failure description, and is a
syntactically executable `print` of a string literal. -/
theorem generate_failure_fragment (user_prompt df_schema df_head api_key : String)
    (env : GenAiEnv) (e : String)
    (hfail : generate_run api_key env = GenOutcome.configError e ∨
      generate_run api_key env = GenOutcome.callError e)
    (he : e.data.all pyLiteralCharOk = true) :
    pyOneLine (generate_analysis_code user_prompt df_schema df_head api_key env) = true ∧
    hasSub (generate_analysis_code user_prompt df_schema df_head api_key env).data e.data
      = true ∧
    printFragmentExecutable
      (generate_analysis_code user_prompt df_schema df_head api_key env) = true := by
  unfold generate_analysis_code
  rcases hfail with h | h
  · rw [h]
    exact configErrorFragment_props e he
  · rw [h]
    exact callErrorFragment_props e he

/-- C2 witness: a configuration failure with a plain description yields a
one-line executable diagnostic fragment containing it. -/
theorem generate_failure_fragment_witness :
    pyOneLine (generate_analysis_code "p" "s" "h" "k" ⟨some "quota exceeded", Except.ok ""⟩)
      = true ∧
    hasSub (generate_analysis_code "p" "s" "h" "k"
      ⟨some "quota exceeded", Except.ok ""⟩).data ("quota exceeded").data = true ∧
    printFragmentExecutable
      (generate_analysis_code "p" "s" "h" "k" ⟨some "quota exceeded", Except.ok ""⟩) = true :=
  generate_failure_fragment "p" "s" "h" "k" ⟨some "quota exceeded", Except.ok ""⟩
    "quota exceeded" (Or.inl (by decide)) (by decide)

/-- C5 counterexample: the round-trip fails as universally stated — a body
with leading whitespace comes back trimmed from the fenced form but
untouched from the bare form, and a body that itself starts with the
marker is stripped twice on one side and once on the other. -/
theorem strip_markdown_fence_roundtrip_cex :
    strip_markdown_fence (fencedResponse " x = 1") ≠ strip_markdown_fence " x = 1" ∧
    strip_markdown_fence (fencedResponse "```python\nx\n```") ≠
      strip_markdown_fence "```python\nx\n```" := by
  decide

/-- C5 (amended): for every response body with no leading or trailing
whitespace that does not itself begin with the fence marker, post-processing
the canonically fenced response yields exactly the bare body — identical to
what post-processing returns on the body with no fencing at all. -/
theorem strip_markdown_fence_roundtrip (c : String)
    (htrim : pyStrip c = c)
    (hm : pyStartswith c fenceMarker = false) :
    strip_markdown_fence (fencedResponse c) = strip_markdown_fence c ∧
    strip_markdown_fence (fencedResponse c) = c := by
  have hnofence : strip_markdown_fence c = c := by
    apply strip_markdown_fence_of_no_marker
    rw [htrim]
    exact hm
  obtain ⟨l⟩ := c
  have hstr : stripEnds isPySpace l = l := congrArg String.data htrim
  obtain ⟨h1, h2⟩ := stripEnds_eq_self hstr
  have hmain : strip_markdown_fence (fencedResponse ⟨l⟩) = ⟨l⟩ := by
    unfold strip_markdown_fence
    have hstripF : pyStrip (fencedResponse ⟨l⟩) = ⟨fencedL l⟩ := by
      unfold pyStrip
      rw [fencedResponse_data, stripWS_fencedL]
    rw [hstripF]
    have hcond : pyStartswith (⟨fencedL l⟩ : String) fenceMarker = true := fencedL_marker l
    simp only [hcond, if_true]
    have hdrop : pyDrop (⟨fencedL l⟩ : String) 9 = ⟨'\n' :: (l ++ ['\n', '`', '`', '`'])⟩ :=
      congrArg String.mk (fencedL_drop9 l)
    rw [hdrop]
    have hbt : pyStripBackticks (⟨'\n' :: (l ++ ['\n', '`', '`', '`'])⟩ : String) =
        ⟨'\n' :: (l ++ ['\n'])⟩ :=
      congrArg String.mk (stripBT_wrap l)
    rw [hbt]
    exact congrArg String.mk (stripWS_newline_wrap l h1 h2)
  exact ⟨hmain.trans hnofence.symm, hmain⟩

/-- C5 witness: a trimmed body that is not itself fenced round-trips. -/
theorem strip_markdown_fence_roundtrip_witness :
    strip_markdown_fence (fencedResponse "df.plot()") = strip_markdown_fence "df.plot()" ∧
    strip_markdown_fence (fencedResponse "df.plot()") = "df.plot()" :=
  strip_markdown_fence_roundtrip "df.plot()" (by decide) (by decide)
